import Mathlib

/-!
Verification of the LEDMatrix YouTube-stats widget (`src/manager.py`,
class `YouTubeStatsPlugin`) against its natural-language specification.

The Python source is shallowly embedded: the in-memory plugin state is a
Lean structure, the external collaborators (cache manager, HTTP endpoint,
display surface, API counter) are modelled as environment parameters, and
every externally visible action is recorded in an event trace in the order
the source performs it.
-/

namespace YouTubeStats

mutual
/-- JSON values, as returned by `response.json()` in `_get_channel_stats`.
JSON numbers are modelled as integers: every claim concerns integer count
fields, and fractional values play no role in the source. Arrays and
objects carry their own list types so that decidable equality (needed for
the source's `!=` comparisons on stats dictionaries) is derivable. -/
inductive Json where
  | null : Json
  | bool (b : Bool) : Json
  | num (n : Int) : Json
  | str (s : String) : Json
  | arr (xs : JsonArr) : Json
  | obj (fs : JsonObj) : Json
deriving DecidableEq

/-- A JSON array (list of JSON values). -/
inductive JsonArr where
  | nil : JsonArr
  | cons (hd : Json) (tl : JsonArr) : JsonArr
deriving DecidableEq

/-- A JSON object (association list from string keys to JSON values;
decoded Python dicts have unique keys). -/
inductive JsonObj where
  | nil : JsonObj
  | cons (key : String) (val : Json) (tl : JsonObj) : JsonObj
deriving DecidableEq
end

/-- Python truthiness (`if data['items']:` style tests) on JSON values. -/
def jsonTruthy : Json → Bool
  | Json.null => false
  | Json.bool b => b
  | Json.num n => n != 0
  | Json.str s => s != ""
  | Json.arr JsonArr.nil => false
  | Json.arr _ => true
  | Json.obj JsonObj.nil => false
  | Json.obj _ => true

/-- First binding of `key` in a JSON object (dictionary lookup). -/
def lookupField : JsonObj → String → Option Json
  | JsonObj.nil, _ => none
  | JsonObj.cons k v rest, key => if k = key then some v else lookupField rest key

/-- `x[key]` on a JSON value: a `KeyError` (object without the key) or a
`TypeError` (non-object) both land in `_get_channel_stats`'s
`except (KeyError, ValueError, TypeError)` handler, so both are `none`. -/
def getField (j : Json) (key : String) : Option Json :=
  match j with
  | Json.obj fs => lookupField fs key
  | _ => none

/-- One step of Python's digit-run check: after a leading digit, digits and
single underscores between digits are allowed. -/
def digitsTail : List Char → Bool
  | [] => true
  | '_' :: [] => false
  | '_' :: d :: rest => d.isDigit && digitsTail rest
  | c :: rest => c.isDigit && digitsTail rest

/-- A valid unsigned digit run for Python's `int(str)`: at least one digit,
underscores only singly and between digits. -/
def digitsOk : List Char → Bool
  | [] => false
  | c :: rest => c.isDigit && digitsTail rest

/-- Numeric value of a digit run, ignoring grouping underscores. -/
def digitsVal (cs : List Char) : Nat :=
  (cs.filter (fun c => c != '_')).foldl (fun a c => 10 * a + (c.toNat - 48)) 0

/-- ASCII whitespace, as stripped by Python's `int(str)`. -/
def pyWhitespace (c : Char) : Bool :=
  c == ' ' || c == '\t' || c == '\n' || c == '\r' || c == '\x0b' || c == '\x0c'

/-- Strip leading and trailing whitespace from a character list. -/
def stripChars (cs : List Char) : List Char :=
  ((cs.dropWhile pyWhitespace).reverse.dropWhile pyWhitespace).reverse

/-- Python `int(s)` for a string: surrounding whitespace stripped, optional
sign, digits with optional single grouping underscores; `ValueError`
(= `none`) otherwise. (Non-ASCII decimal digits are outside the model.) -/
def pyIntOfString (s : String) : Option Int :=
  match stripChars s.data with
  | '+' :: rest => if digitsOk rest then some (digitsVal rest : Int) else none
  | '-' :: rest => if digitsOk rest then some (-(digitsVal rest : Int)) else none
  | cs => if digitsOk cs then some (digitsVal cs : Int) else none

/-- Python `int(x)` on a decoded JSON value, as applied to the
`subscriberCount` / `viewCount` fields: ints pass through, bools coerce to
0/1, strings are parsed, everything else is a `TypeError` (= `none`). -/
def pyInt : Json → Option Int
  | Json.num n => some n
  | Json.bool b => some (if b then 1 else 0)
  | Json.str s => pyIntOfString s
  | _ => none

/-- The stats dictionary built at manager.py:161-165. `title` keeps the raw
JSON value `channel['snippet']['title']`, exactly as the source stores it
without coercion; the two counts are the `int(...)` coercions. -/
structure Stats where
  title : Json
  subscribers : Int
  views : Int
deriving DecidableEq

/-- The parse step of `_get_channel_stats` (manager.py:159-173): requires a
decoded body with a truthy `items` entry whose first element is taken by
`data['items'][0]`; any `KeyError`/`ValueError`/`TypeError` on the way to
the three fields is caught by the handler at line 177 and yields `none`,
as does the explicit `else` branch for a missing or falsy `items`. When
`data` is not an object or `items` is truthy but not an array, every
Python path (`'items' in data` false, or a `TypeError`/`KeyError` while
indexing) likewise returns `None`, so the result is uniformly `none`. -/
def parseChannelStats (data : Json) : Option Stats :=
  match getField data "items" with
  | none => none
  | some items =>
    if jsonTruthy items then
      match items with
      | Json.arr (JsonArr.cons channel _) =>
        match getField channel "snippet" with
        | none => none
        | some snippet =>
          match getField snippet "title" with
          | none => none
          | some title =>
            match getField channel "statistics" with
            | none => none
            | some statistics =>
              match getField statistics "subscriberCount" with
              | none => none
              | some subsField =>
                match pyInt subsField with
                | none => none
                | some subscribers =>
                  match getField statistics "viewCount" with
                  | none => none
                  | some viewsField =>
                    match pyInt viewsField with
                    | none => none
                    | some views =>
                      some { title := title, subscribers := subscribers, views := views }
      | _ => none
    else none

/-- The request URL built at manager.py:146. -/
def statsUrl (channel_id api_key : String) : String :=
  "https://www.googleapis.com/youtube/v3/channels?part=statistics,snippet&id="
    ++ channel_id ++ "&key=" ++ api_key

/-- Outcome of `requests.get(url, timeout=10)` followed by
`raise_for_status()` and `response.json()`:
* `err` — a `requests.exceptions.RequestException` (network error, timeout,
  or non-2xx status raised by `raise_for_status`);
* `badJson` — a 2xx response whose body fails to decode (a `ValueError`
  from `response.json()`);
* `ok` — a 2xx response with decoded JSON body. -/
inductive NetResult where
  | err : NetResult
  | badJson : NetResult
  | ok (body : Json) : NetResult

/-- The three rendered text lines of the composed image. Geometry that no
claim constrains (pixel x/y placement of logo and centered text) is not
modelled; the line contents are. -/
structure DisplayImage where
  nameLine : String
  subsLine : String
  viewsLine : String
deriving DecidableEq

/-- Externally visible actions of the plugin, in the order the source
performs them. -/
inductive Event where
  | cacheGet (key : String) (maxAge : Int) : Event
  | netRequest (url : String) : Event
  | counterInc (kind : String) (count : Int) : Event
  | cacheSet (key : String) (ttl : Int) : Event
  | surfaceClear : Event
  | compose (stats : Stats) : Event
  | setImage (img : DisplayImage) : Event
  | updateDisplay : Event
deriving DecidableEq

/-- The external collaborators of `_get_channel_stats`: the host's cache
manager (`get(key, max_age)`) and the HTTP endpoint keyed by URL. -/
structure FetchEnv where
  cache : String → Int → Option Stats
  net : String → NetResult

/-- The widget's in-memory state: configuration fields read in `__init__`
(manager.py:50-52), the current and last-displayed stats snapshots
(manager.py:55,58), the enabled flag, and whether the logo and font assets
resolved (`self.youtube_logo` / `self.font` non-`None`). -/
structure PluginState where
  enabled : Bool
  channel_id : String
  api_key : String
  update_interval_config : Int
  plugin_id : String
  channel_stats : Option Stats
  last_displayed_stats : Option Stats
  hasLogo : Bool
  hasFont : Bool

/-- `_get_channel_stats` (manager.py:129-179): config guards, cache probe,
network fetch, counter increment (after a successful JSON decode, before
the `items` check), parse, and cache write on success. Returns the result
together with the trace of external actions in source order. -/
def getChannelStats (st : PluginState) (env : FetchEnv) : Option Stats × List Event :=
  if st.api_key = "" then (none, [])
  else if st.channel_id = "" then (none, [])
  else
    let cacheKey := st.plugin_id ++ "_channel_stats"
    match env.cache cacheKey st.update_interval_config with
    | some cached => (some cached, [Event.cacheGet cacheKey st.update_interval_config])
    | none =>
      let url := statsUrl st.channel_id st.api_key
      let probed := [Event.cacheGet cacheKey st.update_interval_config, Event.netRequest url]
      match env.net url with
      | NetResult.err => (none, probed)
      | NetResult.badJson => (none, probed)
      | NetResult.ok data =>
        let counted := probed ++ [Event.counterInc "youtube" 1]
        match parseChannelStats data with
        | some stats =>
            (some stats, counted ++ [Event.cacheSet cacheKey st.update_interval_config])
        | none => (none, counted)

/-- `update` (manager.py:243-248): when enabled, the fetch result replaces
`self.channel_stats` wholesale — also when the fetch returns `None`. -/
def updateCall (st : PluginState) (env : FetchEnv) : PluginState × List Event :=
  if st.enabled then
    let r := getChannelStats st env
    ({ st with channel_stats := r.1 }, r.2)
  else (st, [])

/-- Modelled from the spec: the host's cache store (`cache_manager`, not
part of this repository) under the TTL reading of section 4.2 — `get`
accepts only entries younger than `maxAge`, so an entry whose age is at or
past the boundary is a miss. `store` is the entry previously written under
the widget's key (value and write time), `now` the probe time. -/
def cacheLookup (store : Option (Stats × Int)) (now : Int) (maxAge : Int) : Option Stats :=
  match store with
  | some (v, t) => if now - t < maxAge then some v else none
  | none => none

/-- Python string slice `s[:n]` with a possibly negative bound: a negative
`n` counts from the end (`s[:-k]` drops the last `k` characters, clamped
at the empty string). Stated on the character list of the string. -/
def pySliceTo (s : String) (n : Int) : String :=
  if 0 ≤ n then String.mk (s.data.take n.toNat)
  else String.mk (s.data.take (s.length - n.natAbs))

/-- The name-truncation step of `_create_display` (manager.py:216-218):
`if len(channel_name) > max_chars: channel_name = channel_name[:max_chars-3] + "..."`. -/
def truncateName (name : String) (max_chars : Int) : String :=
  if max_chars < (name.length : Int) then pySliceTo name (max_chars - 3) ++ "..."
  else name

/-- Walk a digit list emitting a comma after every group; `k` counts the
digits left in the current group. -/
def groupWalk : Nat → List Char → List Char
  | _, [] => []
  | k, c :: rest =>
    if k ≤ 1 then
      c :: (match rest with | [] => ([] : List Char) | _ => ',' :: groupWalk 3 rest)
    else c :: groupWalk (k - 1) rest

/-- Digits of `n` grouped in threes from the right with commas, as in
Python's thousands-separator format spec: the leading group holds
`len mod 3` digits (3 when the length is a multiple of 3). -/
def commaSep (n : Nat) : String :=
  let ds := (Nat.repr n).data
  let m := ds.length % 3
  String.mk (groupWalk (if m = 0 then 3 else m) ds)

/-- Python `f"\x7bn:,\x7d"`: thousands separators, sign in front for
negative values. -/
def pyThousands (n : Int) : String :=
  if n < 0 then "-" ++ commaSep n.natAbs else commaSep n.natAbs

/-- The display surface and drawing environment of `_create_display`:
matrix dimensions read from `display_manager.matrix`, the resized logo
width (`int(logo.width * (logo_height / logo.height))`, a float
computation from the loaded logo's dimensions, taken as a parameter), and
whether the PIL drawing calls succeed (`drawOk = false` models an
exception inside the `try` block, caught at manager.py:239). -/
structure RenderEnv where
  matrixWidth : Int
  matrixHeight : Int
  logoWidth : Int
  drawOk : Bool

/-- `_create_display` (manager.py:181-241): absent stats, logo or font give
`None`; otherwise the image is composed inside a `try` block whose
failures give `None`. `channel_stats['title']` must be a string (a
non-string raises `TypeError` at `len(channel_name)`, caught at line 239).
The character budget is `(matrix_width - right_section_x - 4) // 8` with
`right_section_x = 2 + logo_width + 4` (floor division, as in Python). -/
def createDisplay (hasLogo hasFont : Bool) (env : RenderEnv) (stats : Option Stats) :
    Option DisplayImage :=
  match stats with
  | none => none
  | some cs =>
    if hasLogo && hasFont then
      if env.drawOk then
        match cs.title with
        | Json.str name =>
          let right_section_x := 2 + env.logoWidth + 4
          let max_chars := Int.fdiv (env.matrixWidth - right_section_x - 4) 8
          some { nameLine := truncateName name max_chars
               , subsLine := pyThousands cs.subscribers ++ " subs"
               , viewsLine := pyThousands cs.views ++ " views" }
        | _ => none
      else none
    else none

/-- The redraw test of `display` (manager.py:262-267): `stats_changed` is
true when nothing was displayed yet or any of the three fields differs. -/
def statsChanged (last : Option Stats) (cur : Stats) : Bool :=
  match last with
  | none => true
  | some l =>
      !(decide (l.subscribers = cur.subscribers)
        && decide (l.views = cur.views)
        && decide (l.title = cur.title))

/-- `display` (manager.py:250-284): no-op when disabled; a lazy `update()`
when no stats are held; then the anti-flicker skip, the forced clear, the
composition, and — only when composition returned an image — the hand-off
(`display_manager.image = ...; update_display()`) and the update of
`last_displayed_stats` to a copy of the displayed snapshot. -/
def displayCall (st : PluginState) (fenv : FetchEnv) (renv : RenderEnv)
    (force_clear : Bool) : PluginState × List Event :=
  if st.enabled then
    let fetched :=
      match st.channel_stats with
      | none => updateCall st fenv
      | some _ => (st, [])
    let st1 := fetched.1
    let evs1 := fetched.2
    match st1.channel_stats with
    | none => (st1, evs1)
    | some cs =>
      if !force_clear && !(statsChanged st1.last_displayed_stats cs) then (st1, evs1)
      else
        let evs2 := evs1 ++ (if force_clear then [Event.surfaceClear] else [])
        match createDisplay st1.hasLogo st1.hasFont renv (some cs) with
        | some img =>
            ({ st1 with last_displayed_stats := some cs },
             evs2 ++ [Event.compose cs, Event.setImage img, Event.updateDisplay])
        | none => (st1, evs2 ++ [Event.compose cs])
  else (st, [])

/-- The raw integer coercion of one count field of a response body, read
along the same path as the parser (`data['items'][0]['statistics'][field]`
followed by `int(...)`). Used to relate parsed records to the response
they came from. -/
def rawCount (data : Json) (field : String) : Option Int :=
  match getField data "items" with
  | some (Json.arr (JsonArr.cons channel _)) =>
      match getField channel "statistics" with
      | some statistics =>
          match getField statistics field with
          | some f => pyInt f
          | none => none
      | none => none
  | _ => none

/-- The stats record of the spec's end-to-end scenario (section 8). -/
def sampleStats : Stats :=
  { title := Json.str "Test Channel", subscribers := 1234, views := 56789 }

/-- The image composed from `sampleStats` on a 64x32 matrix with a
19-pixel-wide resized logo: budget `(64 - 25 - 4) // 8 = 4` characters. -/
def sampleImg : DisplayImage :=
  { nameLine := "T...", subsLine := "1,234 subs", viewsLine := "56,789 views" }

/-- An enabled widget holding (and having displayed) `sampleStats`. -/
def baseState : PluginState :=
  { enabled := true, channel_id := "UC123", api_key := "key"
  , update_interval_config := 300, plugin_id := "yt"
  , channel_stats := some sampleStats, last_displayed_stats := some sampleStats
  , hasLogo := true, hasFont := true }

/-- Collaborators for a failing fetch: empty cache, network error. -/
def idleEnv : FetchEnv :=
  { cache := fun _ _ => none, net := fun _ => NetResult.err }

/-- Collaborators for a 2xx response whose JSON body is an empty object
(decodes fine, contains no `items`). -/
def emptyBodyEnv : FetchEnv :=
  { cache := fun _ _ => none, net := fun _ => NetResult.ok (Json.obj JsonObj.nil) }

/-- A response body whose `subscriberCount` is the numeral `"-1"`. -/
def negBody : Json :=
  Json.obj (JsonObj.cons "items"
    (Json.arr (JsonArr.cons
      (Json.obj (JsonObj.cons "snippet"
          (Json.obj (JsonObj.cons "title" (Json.str "T") JsonObj.nil))
        (JsonObj.cons "statistics"
          (Json.obj (JsonObj.cons "subscriberCount" (Json.str "-1")
            (JsonObj.cons "viewCount" (Json.str "5") JsonObj.nil)))
          JsonObj.nil)))
      JsonArr.nil))
    JsonObj.nil)

/-- Collaborators serving `negBody` from the network, cache empty. -/
def negEnv : FetchEnv :=
  { cache := fun _ _ => none, net := fun _ => NetResult.ok negBody }

/-- The response body of the spec's end-to-end scenario (section 8). -/
def sampleBody : Json :=
  Json.obj (JsonObj.cons "items"
    (Json.arr (JsonArr.cons
      (Json.obj (JsonObj.cons "snippet"
          (Json.obj (JsonObj.cons "title" (Json.str "Test Channel") JsonObj.nil))
        (JsonObj.cons "statistics"
          (Json.obj (JsonObj.cons "subscriberCount" (Json.str "1234")
            (JsonObj.cons "viewCount" (Json.str "56789") JsonObj.nil)))
          JsonObj.nil)))
      JsonArr.nil))
    JsonObj.nil)

/-- A 64x32 matrix with a 19-pixel resized logo and succeeding drawing. -/
def okRenderEnv : RenderEnv :=
  { matrixWidth := 64, matrixHeight := 32, logoWidth := 19, drawOk := true }

/-- A stats record whose `title` is a JSON number (the parser accepts it;
`_create_display` then fails at `len(channel_name)` with a `TypeError`). -/
def badTitleStats : Stats := { title := Json.num 5, subscribers := 1, views := 2 }

/-- An enabled widget holding `badTitleStats`, nothing displayed yet. -/
def badTitleState : PluginState :=
  { baseState with channel_stats := some badTitleStats, last_displayed_stats := none }

/-! ## Theorems -/

/-- C5: for every fetch call where the channel id or the API key is empty,
`_get_channel_stats` returns `None` immediately with an empty trace of
external actions — in particular zero network requests and no cache
write. -/
theorem fetch_missing_config_no_network (st : PluginState) (env : FetchEnv)
    (h : st.api_key = "" ∨ st.channel_id = "") :
    (getChannelStats st env).1 = none ∧
    (getChannelStats st env).2 = [] ∧
    (∀ u, Event.netRequest u ∉ (getChannelStats st env).2) ∧
    (∀ k t, Event.cacheSet k t ∉ (getChannelStats st env).2) := by
  by_cases hk : st.api_key = "" <;>
    rcases h with h | h <;> simp [getChannelStats, hk, h]

/-- C5 witness: a widget with an empty API key fetches nothing and touches
no collaborator. -/
theorem fetch_missing_config_no_network_witness :
    (getChannelStats { baseState with api_key := "" } idleEnv).1 = none ∧
    (getChannelStats { baseState with api_key := "" } idleEnv).2 = [] ∧
    (∀ u, Event.netRequest u ∉ (getChannelStats { baseState with api_key := "" } idleEnv).2) ∧
    (∀ k t, Event.cacheSet k t ∉ (getChannelStats { baseState with api_key := "" } idleEnv).2) :=
  fetch_missing_config_no_network { baseState with api_key := "" } idleEnv (Or.inl rfl)

/-- C3 counterexample: an enabled widget holding a snapshot loses it on a
failed `update()` — `self.channel_stats = self._get_channel_stats()`
overwrites the prior snapshot with `None`, so it is not retained. -/
theorem update_failure_overwrites_cex :
    baseState.channel_stats = some sampleStats ∧
    (getChannelStats baseState idleEnv).1 = none ∧
    (updateCall baseState idleEnv).1.channel_stats = none := by
  refine ⟨rfl, rfl, rfl⟩

/-- C3 amended: on an enabled widget, when the fetch fails (cache miss and
the network call errors out, returns a non-2xx status, decodes to no JSON,
or decodes to a body the parser rejects), the fetch returns `None`, the
widget's current snapshot is overwritten with `None`, and the
last-rendered snapshot is retained unchanged. -/
theorem update_failure_state (st : PluginState) (env : FetchEnv)
    (hen : st.enabled = true)
    (hcache : env.cache (st.plugin_id ++ "_channel_stats") st.update_interval_config = none)
    (hnet : ∀ j, env.net (statsUrl st.channel_id st.api_key) = NetResult.ok j →
      parseChannelStats j = none) :
    (getChannelStats st env).1 = none ∧
    (updateCall st env).1.channel_stats = none ∧
    (updateCall st env).1.last_displayed_stats = st.last_displayed_stats := by
  have hfetch : (getChannelStats st env).1 = none := by
    by_cases hk : st.api_key = ""
    · simp [getChannelStats, hk]
    · by_cases hc : st.channel_id = ""
      · simp [getChannelStats, hk, hc]
      · cases hn : env.net (statsUrl st.channel_id st.api_key) with
        | err => simp [getChannelStats, hk, hc, hcache, hn]
        | badJson => simp [getChannelStats, hk, hc, hcache, hn]
        | ok j => simp [getChannelStats, hk, hc, hcache, hn, hnet j hn]
  refine ⟨hfetch, ?_, ?_⟩ <;> simp [updateCall, hen, hfetch]

/-- C3 amended witness: the concrete enabled widget of `baseState` under
failing collaborators ends up with no current snapshot while its
last-rendered snapshot is untouched. -/
theorem update_failure_state_witness :
    (getChannelStats baseState idleEnv).1 = none ∧
    (updateCall baseState idleEnv).1.channel_stats = none ∧
    (updateCall baseState idleEnv).1.last_displayed_stats = baseState.last_displayed_stats :=
  update_failure_state baseState idleEnv rfl rfl (fun j h => by cases h)

/-- C4: with the cache store modelled from the spec's TTL reading
(`cacheLookup` accepts only entries younger than the refresh interval),
a fetch with non-empty config (1) returns the cached value and issues no
network request when the entry under the widget's key
`plugin_id ++ "_channel_stats"` is younger than the interval; (2) issues a
network request when no entry exists; and (3) issues a network request
when the entry's age is at or past the TTL boundary. -/
theorem cache_ttl_policy (st : PluginState) (store : Option (Stats × Int))
    (now : Int) (net : String → NetResult)
    (hk : st.api_key ≠ "") (hc : st.channel_id ≠ "") :
    ((∀ v t, store = some (v, t) → now - t < st.update_interval_config →
        (getChannelStats st ⟨fun k a =>
            if k = st.plugin_id ++ "_channel_stats" then cacheLookup store now a
            else none, net⟩).1 = some v ∧
        ∀ u, Event.netRequest u ∉ (getChannelStats st ⟨fun k a =>
            if k = st.plugin_id ++ "_channel_stats" then cacheLookup store now a
            else none, net⟩).2) ∧
     (store = none → Event.netRequest (statsUrl st.channel_id st.api_key) ∈
        (getChannelStats st ⟨fun k a =>
            if k = st.plugin_id ++ "_channel_stats" then cacheLookup store now a
            else none, net⟩).2) ∧
     (∀ v t, store = some (v, t) → st.update_interval_config ≤ now - t →
        Event.netRequest (statsUrl st.channel_id st.api_key) ∈
        (getChannelStats st ⟨fun k a =>
            if k = st.plugin_id ++ "_channel_stats" then cacheLookup store now a
            else none, net⟩).2)) := by
  have hmiss : cacheLookup store now st.update_interval_config = none →
      Event.netRequest (statsUrl st.channel_id st.api_key) ∈
      (getChannelStats st ⟨fun k a =>
          if k = st.plugin_id ++ "_channel_stats" then cacheLookup store now a
          else none, net⟩).2 := by
    intro hnone
    cases hn : net (statsUrl st.channel_id st.api_key) with
    | err => simp [getChannelStats, hk, hc, hnone, hn]
    | badJson => simp [getChannelStats, hk, hc, hnone, hn]
    | ok j =>
        cases hp : parseChannelStats j with
        | none => simp [getChannelStats, hk, hc, hnone, hn, hp]
        | some s => simp [getChannelStats, hk, hc, hnone, hn, hp]
  refine ⟨?_, ?_, ?_⟩
  · intro v t hst hage
    have hhit : cacheLookup store now st.update_interval_config = some v := by
      simp [cacheLookup, hst, hage]
    constructor
    · simp [getChannelStats, hk, hc, hhit]
    · intro u
      simp [getChannelStats, hk, hc, hhit]
  · intro hst
    exact hmiss (by simp [cacheLookup, hst])
  · intro v t hst hage
    exact hmiss (by simp [cacheLookup, hst]; omega)

/-- C4 witness: at the concrete widget `baseState`, an entry written at
time 0 probed at time 100 (age 100 < 300) is a hit, and the implications
for the miss cases hold vacuously or by a fresh request. -/
theorem cache_ttl_policy_witness :
    ((∀ v t, some (sampleStats, (0 : Int)) = some (v, t) →
        (100 : Int) - t < baseState.update_interval_config →
        (getChannelStats baseState ⟨fun k a =>
            if k = baseState.plugin_id ++ "_channel_stats"
            then cacheLookup (some (sampleStats, 0)) 100 a
            else none, fun _ => NetResult.err⟩).1 = some v ∧
        ∀ u, Event.netRequest u ∉ (getChannelStats baseState ⟨fun k a =>
            if k = baseState.plugin_id ++ "_channel_stats"
            then cacheLookup (some (sampleStats, 0)) 100 a
            else none, fun _ => NetResult.err⟩).2) ∧
     (some (sampleStats, (0 : Int)) = none →
        Event.netRequest (statsUrl baseState.channel_id baseState.api_key) ∈
        (getChannelStats baseState ⟨fun k a =>
            if k = baseState.plugin_id ++ "_channel_stats"
            then cacheLookup (some (sampleStats, 0)) 100 a
            else none, fun _ => NetResult.err⟩).2) ∧
     (∀ v t, some (sampleStats, (0 : Int)) = some (v, t) →
        baseState.update_interval_config ≤ (100 : Int) - t →
        Event.netRequest (statsUrl baseState.channel_id baseState.api_key) ∈
        (getChannelStats baseState ⟨fun k a =>
            if k = baseState.plugin_id ++ "_channel_stats"
            then cacheLookup (some (sampleStats, 0)) 100 a
            else none, fun _ => NetResult.err⟩).2)) :=
  cache_ttl_policy baseState (some (sampleStats, 0)) 100 (fun _ => NetResult.err)
    (by decide) (by decide)

/-- C6 counterexample: with 16 pixels of text region the budget is
`16 // 8 = 2`, and a 5-character name is rendered as `"hell..."` — 7
characters, not the claimed exact budget of 2 (Python's
`name[:2-3]` slices from the end instead of truncating). -/
theorem truncate_small_budget_cex :
    Int.fdiv (16 : Int) 8 = 2 ∧
    truncateName "hello" (Int.fdiv 16 8) = "hell..." ∧
    (truncateName "hello" (Int.fdiv 16 8)).length = 7 := by
  refine ⟨by decide, by decide, by decide⟩

/-- C6 amended: for every name and every character budget `N ≥ 3`
(the formula `(matrix_width - right_section_x - 4) // 8` reserves 3 of
them for the marker), a name of at most `N` characters is rendered
unmodified, and a longer name is rendered as exactly its first `N - 3`
characters followed by the 3-character `"..."` marker, total length
exactly `N`. For budgets below 3 the slice bound `N - 3` goes negative
and the rendered line can exceed the budget. -/
theorem truncate_budget (name : String) (N : Int) (h3 : 3 ≤ N) :
    (((name.length : Int) ≤ N → truncateName name N = name) ∧
     (N < (name.length : Int) →
        truncateName name N = String.mk (name.data.take (N - 3).toNat) ++ "..." ∧
        ((truncateName name N).length : Int) = N)) := by
  constructor
  · intro hle
    simp only [truncateName]
    rw [if_neg (by omega)]
  · intro hlt
    have hcond : N < (name.length : Int) := hlt
    have h0 : (0 : Int) ≤ N - 3 := by omega
    constructor
    · simp only [truncateName]
      rw [if_pos hcond]
      simp [pySliceTo, h0]
    · simp only [truncateName]
      rw [if_pos hcond]
      simp only [pySliceTo, if_pos h0]
      have hlen : (String.mk (name.data.take (N - 3).toNat) ++ "...").length
          = (name.data.take (N - 3).toNat).length + 3 := by
        simp [String.length_append]
        rfl
      have htake : (name.data.take (N - 3).toNat).length = (N - 3).toNat := by
        rw [List.length_take]
        have : (N - 3).toNat ≤ name.data.length := by
          have : name.length = name.data.length := rfl
          omega
        omega
      rw [hlen, htake]
      omega

/-- C6 amended witness: budget 4 truncates the 12-character
`"Test Channel"` to `"T..."`, exactly 4 characters. -/
theorem truncate_budget_witness :
    ((((("Test Channel" : String).length : Int) ≤ 4 →
        truncateName "Test Channel" 4 = "Test Channel") ∧
      ((4 : Int) < (("Test Channel" : String).length : Int) →
        truncateName "Test Channel" 4 =
          String.mk (("Test Channel" : String).data.take ((4 : Int) - 3).toNat) ++ "..." ∧
        ((truncateName "Test Channel" 4).length : Int) = 4))) :=
  truncate_budget "Test Channel" 4 (by decide)

/-- C8 counterexample: a 2xx response whose JSON body is `\x7b\x7d` makes
`_get_channel_stats` increment the usage counter (the increment sits
before the `items` check) even though no stats record is parsed and the
fetch returns `None`. -/
theorem counter_without_record_cex :
    (getChannelStats baseState emptyBodyEnv).1 = none ∧
    Event.counterInc "youtube" 1 ∈ (getChannelStats baseState emptyBodyEnv).2 ∧
    Event.netRequest (statsUrl baseState.channel_id baseState.api_key) ∈
      (getChannelStats baseState emptyBodyEnv).2 := by
  refine ⟨by decide, by decide, by decide⟩

/-- C8 amended: with non-empty config, the usage counter is incremented
exactly when the fetch misses the cache and the network call returns a
decoded JSON body — i.e. on every successfully decoded 2xx response,
whether or not a stats record is parsed from it — and never on a cache
hit. (Failures of the counter collaborator are swallowed by the source's
`try/except pass` and cannot affect the fetch result, which in this
model emits the increment as a fire-and-forget event.) -/
theorem counter_increment_iff (st : PluginState) (env : FetchEnv)
    (hk : st.api_key ≠ "") (hc : st.channel_id ≠ "") :
    (Event.counterInc "youtube" 1 ∈ (getChannelStats st env).2 ↔
      (env.cache (st.plugin_id ++ "_channel_stats") st.update_interval_config = none ∧
       ∃ j, env.net (statsUrl st.channel_id st.api_key) = NetResult.ok j)) := by
  cases hcache : env.cache (st.plugin_id ++ "_channel_stats") st.update_interval_config with
  | some v => simp [getChannelStats, hk, hc, hcache]
  | none =>
    cases hn : env.net (statsUrl st.channel_id st.api_key) with
    | err => simp [getChannelStats, hk, hc, hcache, hn]
    | badJson => simp [getChannelStats, hk, hc, hcache, hn]
    | ok j =>
        cases hp : parseChannelStats j with
        | none => simp [getChannelStats, hk, hc, hcache, hn, hp]
        | some s => simp [getChannelStats, hk, hc, hcache, hn, hp]

/-- C8 amended witness: on the concrete empty-object response the counter
event is emitted iff the cache missed and a JSON body was decoded — both
of which hold here. -/
theorem counter_increment_iff_witness :
    (Event.counterInc "youtube" 1 ∈ (getChannelStats baseState emptyBodyEnv).2 ↔
      (emptyBodyEnv.cache (baseState.plugin_id ++ "_channel_stats")
          baseState.update_interval_config = none ∧
       ∃ j, emptyBodyEnv.net (statsUrl baseState.channel_id baseState.api_key) =
          NetResult.ok j)) :=
  counter_increment_iff baseState emptyBodyEnv (by decide) (by decide)

/-- C9 counterexample: the parser coerces `"-1"` with Python `int`, so a
response with a negative `subscriberCount` numeral is accepted, stored
into the widget's state by `update()`, and written to the cache — a
snapshot with a negative primary count. -/
theorem negative_count_stored_cex :
    parseChannelStats negBody =
      some { title := Json.str "T", subscribers := -1, views := 5 } ∧
    (updateCall baseState negEnv).1.channel_stats =
      some { title := Json.str "T", subscribers := -1, views := 5 } ∧
    Event.cacheSet "yt_channel_stats" 300 ∈ (updateCall baseState negEnv).2 := by
  refine ⟨by decide, by decide, by decide⟩

/-- C9 amended: every record the parser produces carries exactly the
integer coercions of the response's `subscriberCount` and `viewCount`
fields (read along the same `items[0].statistics` path); the counts are
therefore non-negative whenever those coercions are, but the parser does
not itself enforce non-negativity. -/
theorem counts_match_response (data : Json) (s : Stats)
    (h : parseChannelStats data = some s) :
    rawCount data "subscriberCount" = some s.subscribers ∧
    rawCount data "viewCount" = some s.views ∧
    ((∀ n, rawCount data "subscriberCount" = some n → 0 ≤ n) →
     (∀ n, rawCount data "viewCount" = some n → 0 ≤ n) →
     0 ≤ s.subscribers ∧ 0 ≤ s.views) := by
  cases hi : getField data "items" with
  | none => simp only [parseChannelStats, hi] at h; exact Option.noConfusion h
  | some items =>
    simp only [parseChannelStats, hi] at h
    by_cases ht : jsonTruthy items = true
    · rw [if_pos ht] at h
      cases items with
      | arr xs =>
        cases xs with
        | nil => exact Option.noConfusion h
        | cons channel rest =>
          cases hsn : getField channel "snippet" with
          | none => simp only [hsn] at h; exact Option.noConfusion h
          | some snippet =>
          simp only [hsn] at h
          cases hti : getField snippet "title" with
          | none => simp only [hti] at h; exact Option.noConfusion h
          | some title =>
          simp only [hti] at h
          cases hst : getField channel "statistics" with
          | none => simp only [hst] at h; exact Option.noConfusion h
          | some statistics =>
          simp only [hst] at h
          cases hsf : getField statistics "subscriberCount" with
          | none => simp only [hsf] at h; exact Option.noConfusion h
          | some subsField =>
          simp only [hsf] at h
          cases hsubs : pyInt subsField with
          | none => simp only [hsubs] at h; exact Option.noConfusion h
          | some subscribers =>
          simp only [hsubs] at h
          cases hvf : getField statistics "viewCount" with
          | none => simp only [hvf] at h; exact Option.noConfusion h
          | some viewsField =>
          simp only [hvf] at h
          cases hviews : pyInt viewsField with
          | none => simp only [hviews] at h; exact Option.noConfusion h
          | some views =>
          simp only [hviews, Option.some.injEq] at h
          subst h
          have h1 : rawCount data "subscriberCount" = some subscribers := by
            simp only [rawCount, hi, hst, hsf]
            exact hsubs
          have h2 : rawCount data "viewCount" = some views := by
            simp only [rawCount, hi, hst, hvf]
            exact hviews
          exact ⟨h1, h2, fun hp hv => ⟨hp subscribers h1, hv views h2⟩⟩
      | null => exact Option.noConfusion h
      | bool b => exact Option.noConfusion h
      | num n => exact Option.noConfusion h
      | str s' => exact Option.noConfusion h
      | obj fs => exact Option.noConfusion h
    · rw [if_neg ht] at h; exact Option.noConfusion h

/-- C9 amended witness: on the end-to-end sample body, the parsed record's
counts are exactly the coercions of the response fields (1234 and 56789),
and the non-negativity transfer applies. -/
theorem counts_match_response_witness :
    rawCount sampleBody "subscriberCount" = some sampleStats.subscribers ∧
    rawCount sampleBody "viewCount" = some sampleStats.views ∧
    ((∀ n, rawCount sampleBody "subscriberCount" = some n → 0 ≤ n) →
     (∀ n, rawCount sampleBody "viewCount" = some n → 0 ≤ n) →
     0 ≤ sampleStats.subscribers ∧ 0 ≤ sampleStats.views) :=
  counts_match_response sampleBody sampleStats (by decide)

/-- C1: on an enabled widget whose current snapshot equals the
last-rendered snapshot field by field, two consecutive `display()` calls
without `force_clear` invoke `updateDisplay()` at most once (here: not at
all) — the second call returns without composing or updating, and indeed
both calls leave the state untouched with an empty action trace. -/
theorem display_unchanged_skips (st : PluginState) (fenv : FetchEnv) (renv : RenderEnv)
    (cur last : Stats) (hen : st.enabled = true)
    (hcs : st.channel_stats = some cur) (hlast : st.last_displayed_stats = some last)
    (hsub : last.subscribers = cur.subscribers) (hvw : last.views = cur.views)
    (hti : last.title = cur.title) :
    (((displayCall st fenv renv false).2 ++
        (displayCall (displayCall st fenv renv false).1 fenv renv false).2).count
          Event.updateDisplay ≤ 1) ∧
    (displayCall (displayCall st fenv renv false).1 fenv renv false).2 = [] ∧
    (displayCall st fenv renv false).2 = [] ∧
    (displayCall (displayCall st fenv renv false).1 fenv renv false).1 = st := by
  have h1 : displayCall st fenv renv false = (st, []) := by
    simp [displayCall, hen, hcs, statsChanged, hlast, hsub, hvw, hti]
  rw [h1]
  rw [h1]
  simp

/-- C1 witness: the concrete `baseState` displays nothing on either of two
consecutive unforced calls because its snapshot is unchanged. -/
theorem display_unchanged_skips_witness :
    (((displayCall baseState idleEnv okRenderEnv false).2 ++
        (displayCall (displayCall baseState idleEnv okRenderEnv false).1
          idleEnv okRenderEnv false).2).count Event.updateDisplay ≤ 1) ∧
    (displayCall (displayCall baseState idleEnv okRenderEnv false).1
        idleEnv okRenderEnv false).2 = [] ∧
    (displayCall baseState idleEnv okRenderEnv false).2 = [] ∧
    (displayCall (displayCall baseState idleEnv okRenderEnv false).1
        idleEnv okRenderEnv false).1 = baseState :=
  display_unchanged_skips baseState idleEnv okRenderEnv sampleStats sampleStats
    rfl rfl rfl rfl rfl rfl

/-- C2 counterexample: a `display(force_clear=True)` call on an enabled
widget whose snapshot is present does not always reach `updateDisplay()`:
when composition fails (here: the stored `title` is not a string, so
`_create_display` raises and returns `None`), the surface is cleared but
no image is handed off and no update happens. -/
theorem force_clear_no_update_cex :
    badTitleState.enabled = true ∧
    (displayCall badTitleState idleEnv okRenderEnv true).2 =
      [Event.surfaceClear, Event.compose badTitleStats] ∧
    Event.updateDisplay ∉ (displayCall badTitleState idleEnv okRenderEnv true).2 ∧
    (∀ i, Event.setImage i ∉ (displayCall badTitleState idleEnv okRenderEnv true).2) := by
  refine ⟨rfl, rfl, ?_, ?_⟩
  · show Event.updateDisplay ∉ [Event.surfaceClear, Event.compose badTitleStats]
    simp
  · intro i
    show Event.setImage i ∉ [Event.surfaceClear, Event.compose badTitleStats]
    simp

/-- C2 amended: on an enabled widget with a stats snapshot present whose
composition succeeds, `display(force_clear=True)` — regardless of whether
the snapshot equals the last-rendered one — performs exactly the sequence
clear, compose, hand-off, `updateDisplay()`, in that order, and records
the rendered snapshot. -/
theorem force_clear_sequence (st : PluginState) (fenv : FetchEnv) (renv : RenderEnv)
    (cur : Stats) (img : DisplayImage) (hen : st.enabled = true)
    (hcs : st.channel_stats = some cur)
    (himg : createDisplay st.hasLogo st.hasFont renv (some cur) = some img) :
    displayCall st fenv renv true =
      ({ st with last_displayed_stats := some cur },
       [Event.surfaceClear, Event.compose cur, Event.setImage img,
        Event.updateDisplay]) := by
  simp [displayCall, hen, hcs, himg]

/-- C2 amended witness: the concrete `baseState` under `force_clear=True`
emits clear, compose, hand-off, update in order even though its snapshot
equals the last-rendered one. -/
theorem force_clear_sequence_witness :
    displayCall baseState idleEnv okRenderEnv true =
      ({ baseState with last_displayed_stats := some sampleStats },
       [Event.surfaceClear, Event.compose sampleStats, Event.setImage sampleImg,
        Event.updateDisplay]) :=
  force_clear_sequence baseState idleEnv okRenderEnv sampleStats sampleImg rfl rfl rfl

/-- C10: on an enabled widget with a snapshot present, a forced-clear
`display()` whose composition returns `None` clears the surface first
(the clear precedes the compose in the trace and is not rolled back),
hands no image to the surface, performs no `updateDisplay()`, and leaves
the state — including the last-rendered snapshot — unchanged. -/
theorem force_clear_compose_failure (st : PluginState) (fenv : FetchEnv)
    (renv : RenderEnv) (cur : Stats) (hen : st.enabled = true)
    (hcs : st.channel_stats = some cur)
    (hnone : createDisplay st.hasLogo st.hasFont renv (some cur) = none) :
    displayCall st fenv renv true = (st, [Event.surfaceClear, Event.compose cur]) ∧
    Event.updateDisplay ∉ (displayCall st fenv renv true).2 ∧
    (∀ i, Event.setImage i ∉ (displayCall st fenv renv true).2) := by
  have h1 : displayCall st fenv renv true = (st, [Event.surfaceClear, Event.compose cur]) := by
    simp [displayCall, hen, hcs, hnone]
  refine ⟨h1, ?_, ?_⟩
  · rw [h1]
    simp
  · intro i
    rw [h1]
    simp

/-- C10 witness: the concrete `badTitleState` under `force_clear=True`
clears, fails composition, and neither hands off an image nor updates. -/
theorem force_clear_compose_failure_witness :
    displayCall badTitleState idleEnv okRenderEnv true =
      (badTitleState, [Event.surfaceClear, Event.compose badTitleStats]) ∧
    Event.updateDisplay ∉ (displayCall badTitleState idleEnv okRenderEnv true).2 ∧
    (∀ i, Event.setImage i ∉ (displayCall badTitleState idleEnv okRenderEnv true).2) :=
  force_clear_compose_failure badTitleState idleEnv okRenderEnv badTitleStats rfl rfl rfl

/-- When `display()` changes the last-rendered snapshot, its trace holds a
hand-off and an `updateDisplay()`, and the image it handed off is the
successful composition of the snapshot now held. Helper for C7. -/
theorem displayCall_last_change (st : PluginState) (fenv : FetchEnv) (renv : RenderEnv)
    (fc : Bool)
    (hne : (displayCall st fenv renv fc).1.last_displayed_stats ≠ st.last_displayed_stats) :
    Event.updateDisplay ∈ (displayCall st fenv renv fc).2 ∧
    ∃ img, Event.setImage img ∈ (displayCall st fenv renv fc).2 ∧
      createDisplay st.hasLogo st.hasFont renv
        (displayCall st fenv renv fc).1.channel_stats = some img := by
  cases hen : st.enabled with
  | false => rw [show displayCall st fenv renv fc = (st, []) from by
      simp [displayCall, hen]] at hne; exact absurd rfl hne
  | true =>
    cases hcs : st.channel_stats with
    | some cur =>
      by_cases hskip : (!fc && !(statsChanged st.last_displayed_stats cur)) = true
      · rw [show displayCall st fenv renv fc = (st, []) from by
          simp [displayCall, hen, hcs, hskip]] at hne
        exact absurd rfl hne
      · cases hcd : createDisplay st.hasLogo st.hasFont renv (some cur) with
        | none =>
          rw [show displayCall st fenv renv fc =
              (st, (if fc then [Event.surfaceClear] else []) ++ [Event.compose cur]) from by
            simp [displayCall, hen, hcs, hskip, hcd]] at hne
          exact absurd rfl hne
        | some img =>
          have hd : displayCall st fenv renv fc =
              ({ st with last_displayed_stats := some cur },
               (if fc then [Event.surfaceClear] else []) ++
                 [Event.compose cur, Event.setImage img, Event.updateDisplay]) := by
            simp [displayCall, hen, hcs, hskip, hcd]
          rw [hd]
          refine ⟨by simp, img, by simp, ?_⟩
          simp [hcs, hcd]
    | none =>
      have hup : updateCall st fenv =
          ({ st with channel_stats := (getChannelStats st fenv).1 },
           (getChannelStats st fenv).2) := by
        simp [updateCall, hen]
      cases hfr : (getChannelStats st fenv).1 with
      | none =>
        rw [show displayCall st fenv renv fc =
            ({ st with channel_stats := none }, (getChannelStats st fenv).2) from by
          simp [displayCall, hen, hcs, hup, hfr]] at hne
        exact absurd rfl hne
      | some cs =>
        by_cases hskip : (!fc && !(statsChanged st.last_displayed_stats cs)) = true
        · rw [show displayCall st fenv renv fc =
              ({ st with channel_stats := some cs }, (getChannelStats st fenv).2) from by
            simp [displayCall, hen, hcs, hup, hfr, hskip]] at hne
          exact absurd rfl hne
        · cases hcd : createDisplay st.hasLogo st.hasFont renv (some cs) with
          | none =>
            rw [show displayCall st fenv renv fc =
                ({ st with channel_stats := some cs },
                 (getChannelStats st fenv).2 ++
                   ((if fc then [Event.surfaceClear] else []) ++ [Event.compose cs])) from by
              simp [displayCall, hen, hcs, hup, hfr, hskip, hcd]] at hne
            exact absurd rfl hne
          | some img =>
            have hd : displayCall st fenv renv fc =
                ({ st with channel_stats := some cs, last_displayed_stats := some cs },
                 (getChannelStats st fenv).2 ++
                   ((if fc then [Event.surfaceClear] else []) ++
                     [Event.compose cs, Event.setImage img, Event.updateDisplay])) := by
              simp [displayCall, hen, hcs, hup, hfr, hskip, hcd]
            rw [hd]
            refine ⟨by simp, img, by simp, ?_⟩
            simp [hcd]

/-- When the composition of the held snapshot yields `None`, `display()`
hands nothing to the surface, never calls `updateDisplay()`, and leaves
the last-rendered snapshot unchanged. Helper for C7. -/
theorem displayCall_compose_none (st : PluginState) (fenv : FetchEnv) (renv : RenderEnv)
    (fc : Bool) (cur : Stats) (hcs : st.channel_stats = some cur)
    (hnone : createDisplay st.hasLogo st.hasFont renv (some cur) = none) :
    (∀ img, Event.setImage img ∉ (displayCall st fenv renv fc).2) ∧
    Event.updateDisplay ∉ (displayCall st fenv renv fc).2 ∧
    (displayCall st fenv renv fc).1.last_displayed_stats = st.last_displayed_stats := by
  cases hen : st.enabled with
  | false => simp [displayCall, hen]
  | true =>
    by_cases hskip : (!fc && !(statsChanged st.last_displayed_stats cur)) = true
    · rw [show displayCall st fenv renv fc = (st, []) from by
        simp [displayCall, hen, hcs, hskip]]
      simp
    · rw [show displayCall st fenv renv fc =
          (st, (if fc then [Event.surfaceClear] else []) ++ [Event.compose cur]) from by
        simp [displayCall, hen, hcs, hskip, hnone]]
      cases fc <;> simp

/-- C7: in every `display()` call, (1) whenever the call changes the
last-rendered snapshot, its trace contains a hand-off and an
`updateDisplay()`, and the handed-off image is the successful composition
of the snapshot then held — so `RenderState` is updated only after a
successful composition and hand-off; and (2) whenever composition of the
held snapshot returns `None`, no hand-off and no `updateDisplay()` occur
and the last-rendered snapshot is left unchanged. -/
theorem renderstate_update_discipline (st : PluginState) (fenv : FetchEnv)
    (renv : RenderEnv) (fc : Bool) :
    ((displayCall st fenv renv fc).1.last_displayed_stats ≠ st.last_displayed_stats →
      Event.updateDisplay ∈ (displayCall st fenv renv fc).2 ∧
      ∃ img, Event.setImage img ∈ (displayCall st fenv renv fc).2 ∧
        createDisplay st.hasLogo st.hasFont renv
          (displayCall st fenv renv fc).1.channel_stats = some img) ∧
    (∀ cur, st.channel_stats = some cur →
      createDisplay st.hasLogo st.hasFont renv (some cur) = none →
      (∀ img, Event.setImage img ∉ (displayCall st fenv renv fc).2) ∧
      Event.updateDisplay ∉ (displayCall st fenv renv fc).2 ∧
      (displayCall st fenv renv fc).1.last_displayed_stats = st.last_displayed_stats) :=
  ⟨displayCall_last_change st fenv renv fc,
   fun cur hcs hnone => displayCall_compose_none st fenv renv fc cur hcs hnone⟩

/-- C7 witness: part (1) exercised on a widget that has data but has never
rendered (the unforced call renders and records the snapshot), part (2) on
the widget whose composition fails. -/
theorem renderstate_update_discipline_witness :
    (Event.updateDisplay ∈
        (displayCall { baseState with last_displayed_stats := none }
          idleEnv okRenderEnv false).2 ∧
      ∃ img, Event.setImage img ∈
          (displayCall { baseState with last_displayed_stats := none }
            idleEnv okRenderEnv false).2 ∧
        createDisplay ({ baseState with last_displayed_stats := none } : PluginState).hasLogo
          ({ baseState with last_displayed_stats := none } : PluginState).hasFont okRenderEnv
          (displayCall { baseState with last_displayed_stats := none }
            idleEnv okRenderEnv false).1.channel_stats = some img) ∧
    ((∀ img, Event.setImage img ∉ (displayCall badTitleState idleEnv okRenderEnv false).2) ∧
      Event.updateDisplay ∉ (displayCall badTitleState idleEnv okRenderEnv false).2 ∧
      (displayCall badTitleState idleEnv okRenderEnv false).1.last_displayed_stats =
        badTitleState.last_displayed_stats) :=
  ⟨(renderstate_update_discipline { baseState with last_displayed_stats := none }
      idleEnv okRenderEnv false).1 (by decide),
   (renderstate_update_discipline badTitleState idleEnv okRenderEnv false).2
      badTitleStats rfl rfl⟩

end YouTubeStats
